import Mathlib

/-!
Shallow embedding of the polling/reconciliation core of the `ecocar_y3_hmi`
telemetry dashboard client: the `DataModel` reconciler
(`client/src/datamodel.cpp`) and the reply handler of `NetworkManager`
(`client/src/networkmanager.cpp`).

JSON values are modelled by an inductive `Json` type; Qt's `QJsonObject` is
an association list `List (String × Json)`.  The Qt accessors used by the
code (`operator[]`, `contains`, `toObject`, `toDouble`, `toBool`) are
modelled with their Qt semantics: a missing key yields the undefined value,
`toObject` of a non-object is the empty object, `toDouble` of anything that
is not a number is `0.0`, and `toBool` of anything that is not a boolean is
`false`.  The C++ `double` values are modelled by `ℚ`; the only operation
the code performs on them is exact equality comparison (`!=`), modelled by
decidable equality on `ℚ`.

Qt signal emissions are modelled as explicit event lists returned alongside
the updated state, in emission order.
-/

namespace EcocarHMI

/-- A JSON value, as decoded by `QJsonDocument::fromJson`.  Objects are
association lists of key/value pairs. -/
inductive Json where
  | null : Json
  | bool : Bool → Json
  | num : ℚ → Json
  | str : String → Json
  | arr : List Json → Json
  | obj : List (String × Json) → Json

/-- `QJsonObject::operator[]` / `value(key)`: the value stored under `key`,
or `none` for Qt's undefined value when the key is absent. -/
def objLookup : List (String × Json) → String → Option Json
  | [], _ => none
  | (k, v) :: rest, key => if k = key then some v else objLookup rest key

/-- `QJsonObject::contains(key)`. -/
def objContains (fields : List (String × Json)) (key : String) : Bool :=
  (objLookup fields key).isSome

/-- `QJsonValue::toObject()` on a defined value: the fields if the value is
an object, otherwise the empty object. -/
def Json.toObjectFields : Json → List (String × Json)
  | .obj fields => fields
  | _ => []

/-- `QJsonValue::toObject()` on a possibly-undefined value. -/
def toObjectFieldsOpt : Option Json → List (String × Json)
  | some j => j.toObjectFields
  | none => []

/-- `QJsonValue::toDouble()` on a possibly-undefined value: the number if
the value is a JSON number, otherwise the default `0.0`. -/
def toDouble : Option Json → ℚ
  | some (.num q) => q
  | _ => 0

/-- `QJsonValue::toBool()` on a possibly-undefined value: the boolean if
the value is a JSON boolean, otherwise the default `false`. -/
def toBool : Option Json → Bool
  | some (.bool b) => b
  | _ => false

/-- Whether a JSON value is an object. -/
def isJsonObj : Json → Bool
  | .obj _ => true
  | _ => false

/-- Whether a possibly-undefined JSON value is an object. -/
def isObjOpt : Option Json → Bool
  | some j => isJsonObj j
  | none => false

/-- The member variables of `DataModel` that hold the telemetry snapshot
(`m_vehicleSpeed`, `m_batteryVoltage`, `m_motorTemp`, `m_connected`). -/
structure DataModelState where
  m_vehicleSpeed : ℚ
  m_batteryVoltage : ℚ
  m_motorTemp : ℚ
  m_connected : Bool
deriving DecidableEq

/-- The signals `DataModel` can emit. -/
inductive ChangeEvent where
  | vehicleSpeedChanged : ChangeEvent
  | batteryVoltageChanged : ChangeEvent
  | motorTempChanged : ChangeEvent
  | connectionStatusChanged : ChangeEvent
  | error : String → ChangeEvent
deriving DecidableEq

/-- The state established by the `DataModel` constructor:
`m_vehicleSpeed(0.0), m_batteryVoltage(0.0), m_motorTemp(0.0),
m_connected(false)`. -/
def initialDataModel : DataModelState :=
  { m_vehicleSpeed := 0, m_batteryVoltage := 0, m_motorTemp := 0,
    m_connected := false }

/-- `messages[key].toObject()["value"].toDouble()` — the numeric reading the
code extracts for a known field key. -/
def entryDouble (messages : List (String × Json)) (key : String) : ℚ :=
  toDouble (objLookup (toObjectFieldsOpt (objLookup messages key)) "value")

/-- The "Update vehicle speed" block of `DataModel::handleDataReceived`. -/
def speedStep (messages : List (String × Json))
    (p : DataModelState × List ChangeEvent) :
    DataModelState × List ChangeEvent :=
  if objContains messages "speed" then
    if p.1.m_vehicleSpeed ≠ entryDouble messages "speed" then
      ({ p.1 with m_vehicleSpeed := entryDouble messages "speed" },
        p.2 ++ [ChangeEvent.vehicleSpeedChanged])
    else p
  else p

/-- The "Update battery voltage" block of `DataModel::handleDataReceived`. -/
def batteryStep (messages : List (String × Json))
    (p : DataModelState × List ChangeEvent) :
    DataModelState × List ChangeEvent :=
  if objContains messages "battery_voltage" then
    if p.1.m_batteryVoltage ≠ entryDouble messages "battery_voltage" then
      ({ p.1 with m_batteryVoltage := entryDouble messages "battery_voltage" },
        p.2 ++ [ChangeEvent.batteryVoltageChanged])
    else p
  else p

/-- The "Update motor temperature" block of
`DataModel::handleDataReceived`. -/
def motorStep (messages : List (String × Json))
    (p : DataModelState × List ChangeEvent) :
    DataModelState × List ChangeEvent :=
  if objContains messages "motor_temp" then
    if p.1.m_motorTemp ≠ entryDouble messages "motor_temp" then
      ({ p.1 with m_motorTemp := entryDouble messages "motor_temp" },
        p.2 ++ [ChangeEvent.motorTempChanged])
    else p
  else p

/-- `DataModel::handleDataReceived(const QJsonObject &data)`: extracts
`data["messages"].toObject()` and runs the three per-field update blocks in
source order, returning the updated snapshot and the emitted signals in
emission order. -/
def handleDataReceived (data : List (String × Json)) (s : DataModelState) :
    DataModelState × List ChangeEvent :=
  motorStep (toObjectFieldsOpt (objLookup data "messages"))
    (batteryStep (toObjectFieldsOpt (objLookup data "messages"))
      (speedStep (toObjectFieldsOpt (objLookup data "messages")) (s, [])))

/-- `DataModel::handleStatusReceived(const QJsonObject &status)`: decodes
`status["connected"].toBool()` and updates/emits only on difference. -/
def handleStatusReceived (status : List (String × Json))
    (s : DataModelState) : DataModelState × List ChangeEvent :=
  if s.m_connected ≠ toBool (objLookup status "connected") then
    ({ s with m_connected := toBool (objLookup status "connected") },
      [ChangeEvent.connectionStatusChanged])
  else (s, [])

/-- `DataModel::handleNetworkError(const QString &error)`: re-emits the
error, unconditionally sets `m_connected = false` and unconditionally emits
`connectionStatusChanged()`. -/
def handleNetworkError (err : String) (s : DataModelState) :
    DataModelState × List ChangeEvent :=
  ({ s with m_connected := false },
    [ChangeEvent.error err, ChangeEvent.connectionStatusChanged])

/-- The signals `NetworkManager` can emit from a finished reply. -/
inductive NetworkEvent where
  | dataReceived : List (String × Json) → NetworkEvent
  | systemStatusReceived : List (String × Json) → NetworkEvent
  | error : String → NetworkEvent

/-- Whether `small` occurs at the start of `big` (character lists). -/
def charsStartWith : List Char → List Char → Bool
  | _, [] => true
  | [], _ :: _ => false
  | c :: rest, d :: ds => c = d && charsStartWith rest ds

/-- Whether `needle` occurs as a contiguous run inside `hay`. -/
def charsContain (needle : List Char) : List Char → Bool
  | [] => needle.isEmpty
  | c :: rest => charsStartWith (c :: rest) needle || charsContain needle rest

/-- `QString::contains(substring)`. -/
def strContains (hay needle : String) : Bool :=
  charsContain needle.toList hay.toList

/-- `NetworkManager::handleNetworkReply(QNetworkReply *reply)`.
`replyError` models `reply->error()` (`none` = `NoError`, `some msg` =
the reply's error string); `parsedBody` models
`QJsonDocument::fromJson(reply->readAll())` (`none` = a null document,
i.e. the body was not parseable as JSON); `path` models
`reply->url().path()`.  Returns the emitted signals in emission order. -/
def handleNetworkReply (replyError : Option String) (parsedBody : Option Json)
    (path : String) : List NetworkEvent :=
  match replyError with
  | some e => [NetworkEvent.error e]
  | none =>
    match parsedBody with
    | none => [NetworkEvent.error "Invalid JSON response"]
    | some doc =>
      if strContains path "/latest" then
        [NetworkEvent.dataReceived doc.toObjectFields]
      else if strContains path "/status" then
        [NetworkEvent.systemStatusReceived doc.toObjectFields]
      else []

/-- The three numeric telemetry fields of the snapshot. -/
inductive TelemetryField where
  | speed : TelemetryField
  | batteryVoltage : TelemetryField
  | motorTemp : TelemetryField
deriving DecidableEq

/-- The JSON key the code looks up for each telemetry field. -/
def TelemetryField.key : TelemetryField → String
  | .speed => "speed"
  | .batteryVoltage => "battery_voltage"
  | .motorTemp => "motor_temp"

/-- The snapshot member holding each telemetry field. -/
def TelemetryField.get : TelemetryField → DataModelState → ℚ
  | .speed, s => s.m_vehicleSpeed
  | .batteryVoltage, s => s.m_batteryVoltage
  | .motorTemp, s => s.m_motorTemp

/-- The change signal the code emits for each telemetry field. -/
def TelemetryField.event : TelemetryField → ChangeEvent
  | .speed => ChangeEvent.vehicleSpeedChanged
  | .batteryVoltage => ChangeEvent.batteryVoltageChanged
  | .motorTemp => ChangeEvent.motorTempChanged

/-- The value `handleDataReceived` decodes for field `key` from a response
object, or `none` when `data["messages"].toObject()` does not contain
`key`. -/
def decodedField (data : List (String × Json)) (key : String) : Option ℚ :=
  if objContains (toObjectFieldsOpt (objLookup data "messages")) key then
    some (entryDouble (toObjectFieldsOpt (objLookup data "messages")) key)
  else none

/-- Applying a sequence of telemetry response objects through
`handleDataReceived`, discarding events. -/
def applyTelemetrySequence (datas : List (List (String × Json)))
    (s : DataModelState) : DataModelState :=
  datas.foldl (fun st d => (handleDataReceived d st).1) s

/-- The number of `connectionStatusChanged` emissions in an event list. -/
def countConnEvents (l : List ChangeEvent) : Nat :=
  (l.filter (fun e => e = ChangeEvent.connectionStatusChanged)).length

/-! ### Characterization lemmas for the three update blocks -/

lemma speedStep_fst_speed (m : List (String × Json))
    (p : DataModelState × List ChangeEvent) :
    (speedStep m p).1.m_vehicleSpeed =
      if objContains m "speed" then entryDouble m "speed"
      else p.1.m_vehicleSpeed := by
  unfold speedStep; split_ifs <;> simp_all

lemma speedStep_fst_battery (m : List (String × Json))
    (p : DataModelState × List ChangeEvent) :
    (speedStep m p).1.m_batteryVoltage = p.1.m_batteryVoltage := by
  unfold speedStep; split_ifs <;> rfl

lemma speedStep_fst_motor (m : List (String × Json))
    (p : DataModelState × List ChangeEvent) :
    (speedStep m p).1.m_motorTemp = p.1.m_motorTemp := by
  unfold speedStep; split_ifs <;> rfl

lemma speedStep_fst_connected (m : List (String × Json))
    (p : DataModelState × List ChangeEvent) :
    (speedStep m p).1.m_connected = p.1.m_connected := by
  unfold speedStep; split_ifs <;> rfl

lemma speedStep_snd (m : List (String × Json))
    (p : DataModelState × List ChangeEvent) :
    (speedStep m p).2 = p.2 ++
      (if objContains m "speed" = true ∧
          p.1.m_vehicleSpeed ≠ entryDouble m "speed"
       then [ChangeEvent.vehicleSpeedChanged] else []) := by
  unfold speedStep; split_ifs <;> simp_all

lemma batteryStep_fst_battery (m : List (String × Json))
    (p : DataModelState × List ChangeEvent) :
    (batteryStep m p).1.m_batteryVoltage =
      if objContains m "battery_voltage" then entryDouble m "battery_voltage"
      else p.1.m_batteryVoltage := by
  unfold batteryStep; split_ifs <;> simp_all

lemma batteryStep_fst_speed (m : List (String × Json))
    (p : DataModelState × List ChangeEvent) :
    (batteryStep m p).1.m_vehicleSpeed = p.1.m_vehicleSpeed := by
  unfold batteryStep; split_ifs <;> rfl

lemma batteryStep_fst_motor (m : List (String × Json))
    (p : DataModelState × List ChangeEvent) :
    (batteryStep m p).1.m_motorTemp = p.1.m_motorTemp := by
  unfold batteryStep; split_ifs <;> rfl

lemma batteryStep_fst_connected (m : List (String × Json))
    (p : DataModelState × List ChangeEvent) :
    (batteryStep m p).1.m_connected = p.1.m_connected := by
  unfold batteryStep; split_ifs <;> rfl

lemma batteryStep_snd (m : List (String × Json))
    (p : DataModelState × List ChangeEvent) :
    (batteryStep m p).2 = p.2 ++
      (if objContains m "battery_voltage" = true ∧
          p.1.m_batteryVoltage ≠ entryDouble m "battery_voltage"
       then [ChangeEvent.batteryVoltageChanged] else []) := by
  unfold batteryStep; split_ifs <;> simp_all

lemma motorStep_fst_motor (m : List (String × Json))
    (p : DataModelState × List ChangeEvent) :
    (motorStep m p).1.m_motorTemp =
      if objContains m "motor_temp" then entryDouble m "motor_temp"
      else p.1.m_motorTemp := by
  unfold motorStep; split_ifs <;> simp_all

lemma motorStep_fst_speed (m : List (String × Json))
    (p : DataModelState × List ChangeEvent) :
    (motorStep m p).1.m_vehicleSpeed = p.1.m_vehicleSpeed := by
  unfold motorStep; split_ifs <;> rfl

lemma motorStep_fst_battery (m : List (String × Json))
    (p : DataModelState × List ChangeEvent) :
    (motorStep m p).1.m_batteryVoltage = p.1.m_batteryVoltage := by
  unfold motorStep; split_ifs <;> rfl

lemma motorStep_fst_connected (m : List (String × Json))
    (p : DataModelState × List ChangeEvent) :
    (motorStep m p).1.m_connected = p.1.m_connected := by
  unfold motorStep; split_ifs <;> rfl

lemma motorStep_snd (m : List (String × Json))
    (p : DataModelState × List ChangeEvent) :
    (motorStep m p).2 = p.2 ++
      (if objContains m "motor_temp" = true ∧
          p.1.m_motorTemp ≠ entryDouble m "motor_temp"
       then [ChangeEvent.motorTempChanged] else []) := by
  unfold motorStep; split_ifs <;> simp_all

lemma mem_ite_singleton {c : Prop} [Decidable c] {a b : ChangeEvent} :
    (a ∈ (if c then [b] else ([] : List ChangeEvent))) ↔ (c ∧ a = b) := by
  split_ifs <;> simp_all

lemma decoded_iff {c : Prop} [Decidable c] (e x : ℚ) :
    (∃ v, (if c then some e else none) = some v ∧ v ≠ x) ↔ (c ∧ x ≠ e) := by
  split_ifs with hc
  · constructor
    · rintro ⟨v, hv, hvx⟩
      injection hv with hev
      subst hev
      exact ⟨hc, hvx.symm⟩
    · rintro ⟨-, hxe⟩
      exact ⟨e, rfl, hxe.symm⟩
  · simp [hc]

/-! ### Per-field characterization of `handleDataReceived` -/

lemma hdr_fst_speed (data : List (String × Json)) (s : DataModelState) :
    (handleDataReceived data s).1.m_vehicleSpeed =
      (decodedField data "speed").getD s.m_vehicleSpeed := by
  unfold handleDataReceived decodedField
  rw [motorStep_fst_speed, batteryStep_fst_speed, speedStep_fst_speed]
  split_ifs <;> simp

lemma hdr_fst_battery (data : List (String × Json)) (s : DataModelState) :
    (handleDataReceived data s).1.m_batteryVoltage =
      (decodedField data "battery_voltage").getD s.m_batteryVoltage := by
  unfold handleDataReceived decodedField
  rw [motorStep_fst_battery, batteryStep_fst_battery, speedStep_fst_battery]
  split_ifs <;> simp

lemma hdr_fst_motor (data : List (String × Json)) (s : DataModelState) :
    (handleDataReceived data s).1.m_motorTemp =
      (decodedField data "motor_temp").getD s.m_motorTemp := by
  unfold handleDataReceived decodedField
  rw [motorStep_fst_motor, batteryStep_fst_motor, speedStep_fst_motor]
  split_ifs <;> simp

lemma hdr_fst_connected (data : List (String × Json)) (s : DataModelState) :
    (handleDataReceived data s).1.m_connected = s.m_connected := by
  unfold handleDataReceived
  rw [motorStep_fst_connected, batteryStep_fst_connected,
    speedStep_fst_connected]

lemma hdr_event_speed (data : List (String × Json)) (s : DataModelState) :
    ChangeEvent.vehicleSpeedChanged ∈ (handleDataReceived data s).2 ↔
      ∃ v, decodedField data "speed" = some v ∧ v ≠ s.m_vehicleSpeed := by
  unfold handleDataReceived decodedField
  rw [motorStep_snd, batteryStep_snd, speedStep_snd, decoded_iff]
  simp only [List.mem_append, mem_ite_singleton, List.not_mem_nil, reduceCtorEq, and_true,
    and_false, false_and, false_or, or_false]

lemma hdr_event_battery (data : List (String × Json)) (s : DataModelState) :
    ChangeEvent.batteryVoltageChanged ∈ (handleDataReceived data s).2 ↔
      ∃ v, decodedField data "battery_voltage" = some v ∧
        v ≠ s.m_batteryVoltage := by
  unfold handleDataReceived decodedField
  rw [motorStep_snd, batteryStep_snd, speedStep_snd, speedStep_fst_battery,
    decoded_iff]
  simp only [List.mem_append, mem_ite_singleton, List.not_mem_nil, reduceCtorEq, and_true,
    and_false, false_and, false_or, or_false]

lemma hdr_event_motor (data : List (String × Json)) (s : DataModelState) :
    ChangeEvent.motorTempChanged ∈ (handleDataReceived data s).2 ↔
      ∃ v, decodedField data "motor_temp" = some v ∧ v ≠ s.m_motorTemp := by
  unfold handleDataReceived decodedField
  rw [motorStep_snd, batteryStep_snd, speedStep_snd, batteryStep_fst_motor,
    speedStep_fst_motor, decoded_iff]
  simp only [List.mem_append, mem_ite_singleton, List.not_mem_nil, reduceCtorEq, and_true,
    and_false, false_and, false_or, or_false]

lemma hdr_fst_field (f : TelemetryField) (data : List (String × Json))
    (s : DataModelState) :
    f.get (handleDataReceived data s).1 =
      (decodedField data f.key).getD (f.get s) := by
  cases f
  · exact hdr_fst_speed data s
  · exact hdr_fst_battery data s
  · exact hdr_fst_motor data s

lemma hdr_event_field (f : TelemetryField) (data : List (String × Json))
    (s : DataModelState) :
    f.event ∈ (handleDataReceived data s).2 ↔
      ∃ v, decodedField data f.key = some v ∧ v ≠ f.get s := by
  cases f
  · exact hdr_event_speed data s
  · exact hdr_event_battery data s
  · exact hdr_event_motor data s

lemma getLast?_cons_getD (v : ℚ) (l : List ℚ) (d : ℚ) :
    ((v :: l).getLast?).getD d = (l.getLast?).getD v := by
  cases l with
  | nil => rfl
  | cons y ys =>
    rw [List.getLast?_cons_cons]
    have hs : ((y :: ys).getLast?).isSome = true :=
      List.getLast?_isSome.mpr (by simp)
    obtain ⟨z, hz⟩ := Option.isSome_iff_exists.mp hs
    rw [hz]
    rfl

lemma applySeq_field (f : TelemetryField) :
    ∀ (datas : List (List (String × Json))) (s : DataModelState),
      f.get (applyTelemetrySequence datas s) =
        ((datas.filterMap fun d => decodedField d f.key).getLast?).getD
          (f.get s) := by
  intro datas
  induction datas with
  | nil => intro s; rfl
  | cons d t ih =>
    intro s
    have hstep : applyTelemetrySequence (d :: t) s =
        applyTelemetrySequence t (handleDataReceived d s).1 := rfl
    rw [hstep, ih, hdr_fst_field]
    rcases hd : decodedField d f.key with _ | v
    · simp [List.filterMap_cons, hd]
    · simp [List.filterMap_cons, hd, getLast?_cons_getD]

lemma objLookup_cons_ne (k : String) (v : Json) (ms : List (String × Json))
    (key : String) (hk : k ≠ key) :
    objLookup ((k, v) :: ms) key = objLookup ms key := by
  have he : objLookup ((k, v) :: ms) key =
      if k = key then some v else objLookup ms key := rfl
  rw [he, if_neg hk]

/-- A sample snapshot whose connected flag is `true`. -/
def connectedIdle : DataModelState :=
  { m_vehicleSpeed := 0, m_batteryVoltage := 0, m_motorTemp := 0,
    m_connected := true }

/-- A sample snapshot whose stored speed is `5`. -/
def speedFive : DataModelState :=
  { m_vehicleSpeed := 5, m_batteryVoltage := 0, m_motorTemp := 0,
    m_connected := false }

/-! ### Claims -/

/-- Claim C1: over any sequence of telemetry mappings applied through
`handleDataReceived`, each snapshot field equals the decoded value of the
most recent applied mapping that contained the field (falling back to the
starting value when none did), and a change event for the field is emitted
on an application iff the incoming decoded value differs by exact equality
from the stored value immediately before that application. -/
theorem claim_C1 (f : TelemetryField) (datas : List (List (String × Json)))
    (s0 : DataModelState) :
    f.get (applyTelemetrySequence datas s0) =
      ((datas.filterMap fun d => decodedField d f.key).getLast?).getD
        (f.get s0) ∧
    ∀ (data : List (String × Json)) (s : DataModelState),
      f.event ∈ (handleDataReceived data s).2 ↔
        ∃ v, decodedField data f.key = some v ∧ v ≠ f.get s :=
  ⟨applySeq_field f datas s0, fun data s => hdr_event_field f data s⟩

/-- Claim C2 counterexample: starting from a connected snapshot, the second
of two consecutive fetch failures still emits a `ConnectionStatus` change
event, where the claim says the second application emits none. -/
theorem claim_C2_counterexample :
    countConnEvents
      (handleNetworkError "e" (handleNetworkError "e" connectedIdle).1).2
      = 1 := rfl

/-- Claim C2 (amended): `handleNetworkError` unconditionally forces the
connected flag to `false` and unconditionally emits exactly one
`ConnectionStatus` change event; two consecutive fetch failures therefore
emit one such event each.  The stored state, but not the notification, is
idempotent while disconnected. -/
theorem claim_C2 (s : DataModelState) (m1 m2 : String) :
    (handleNetworkError m1 s).1.m_connected = false ∧
    countConnEvents (handleNetworkError m1 s).2 = 1 ∧
    countConnEvents
      (handleNetworkError m2 (handleNetworkError m1 s).1).2 = 1 :=
  ⟨rfl, rfl, rfl⟩

/-- Claim C3 counterexample: with stored speed `5`, a mapping whose `speed`
entry lacks a `value` member updates the stored speed to the coerced `0`
and emits a speed change event, where the claim says the defective entry
must not update the field. -/
theorem claim_C3_counterexample :
    (handleDataReceived [("messages", Json.obj [("speed", Json.obj [])])]
      speedFive).1.m_vehicleSpeed = 0 ∧
    (handleDataReceived [("messages", Json.obj [("speed", Json.obj [])])]
      speedFive).2 = [ChangeEvent.vehicleSpeedChanged] :=
  ⟨rfl, rfl⟩

/-- Claim C3 (amended): in any response object whose telemetry mapping
contains a known field key whose entry object lacks a `value` member, the
defective entry is not treated as a decode error: the missing member is
coerced to `0.0` and processed as an ordinary reading of `0`, so that
field is set to `0` and its change event is emitted exactly when the
previously stored value was nonzero, while every other field of the
mapping is still applied exactly as usual (value from its own decoded
entry, event iff it differs from the stored one). -/
theorem claim_C3 (f : TelemetryField) (entry : Json)
    (data : List (String × Json)) (s : DataModelState)
    (h1 : objLookup (toObjectFieldsOpt (objLookup data "messages")) f.key
      = some entry)
    (h2 : objLookup entry.toObjectFields "value" = none) :
    f.get (handleDataReceived data s).1 = 0 ∧
    (f.event ∈ (handleDataReceived data s).2 ↔ f.get s ≠ 0) ∧
    ∀ g : TelemetryField, g ≠ f →
      g.get (handleDataReceived data s).1 =
        (decodedField data g.key).getD (g.get s) ∧
      (g.event ∈ (handleDataReceived data s).2 ↔
        ∃ v, decodedField data g.key = some v ∧ v ≠ g.get s) := by
  have hd : decodedField data f.key = some 0 := by
    unfold decodedField objContains entryDouble
    rw [h1]
    show (if true = true then
        some (toDouble (objLookup entry.toObjectFields "value"))
      else none) = some 0
    rw [h2]
    rfl
  refine ⟨?_, ?_, ?_⟩
  · rw [hdr_fst_field, hd]
    rfl
  · rw [hdr_event_field, hd]
    constructor
    · rintro ⟨v, hv, hvs⟩
      injection hv with h0
      subst h0
      exact hvs.symm
    · intro hs
      exact ⟨0, rfl, hs.symm⟩
  · intro g _
    exact ⟨hdr_fst_field g data s, hdr_event_field g data s⟩

/-- A sample telemetry response whose `speed` entry lacks a `value` member
while its `battery_voltage` entry carries the reading `7`. -/
def defectiveSpeedData : List (String × Json) :=
  [("messages",
    Json.obj
      [("speed", Json.obj []),
       ("battery_voltage", Json.obj [("value", Json.num 7)])])]

/-- Claim C3 witness: the amended claim at `speed`, a mapping whose
`speed` entry is the empty object next to a well-formed `battery_voltage`
entry, and stored speed `5`. -/
theorem claim_C3_witness :
    objLookup (toObjectFieldsOpt (objLookup defectiveSpeedData "messages"))
      TelemetryField.speed.key = some (Json.obj []) ∧
    objLookup (Json.obj []).toObjectFields "value" = none ∧
    (TelemetryField.speed.get
        (handleDataReceived defectiveSpeedData speedFive).1 = 0 ∧
      (TelemetryField.speed.event ∈
          (handleDataReceived defectiveSpeedData speedFive).2 ↔
        TelemetryField.speed.get speedFive ≠ 0) ∧
      ∀ g : TelemetryField, g ≠ TelemetryField.speed →
        g.get (handleDataReceived defectiveSpeedData speedFive).1 =
          (decodedField defectiveSpeedData g.key).getD (g.get speedFive) ∧
        (g.event ∈ (handleDataReceived defectiveSpeedData speedFive).2 ↔
          ∃ v, decodedField defectiveSpeedData g.key = some v ∧
            v ≠ g.get speedFive)) :=
  ⟨rfl, rfl,
    claim_C3 TelemetryField.speed (Json.obj []) defectiveSpeedData speedFive
      rfl rfl⟩

/-- Claim C4 counterexample: a status body with no `connected` member
passes the reply handler as a successful status result (no error emitted),
and applying it to a connected snapshot silently flips the stored flag to
`false` with a `ConnectionStatus` event — the missing member is not a
decode error. -/
theorem claim_C4_counterexample :
    handleNetworkReply none (some (Json.obj [])) "/api/v1/can/status"
      = [NetworkEvent.systemStatusReceived []] ∧
    (handleStatusReceived [] connectedIdle).1.m_connected = false ∧
    (handleStatusReceived [] connectedIdle).2 =
      [ChangeEvent.connectionStatusChanged] :=
  ⟨rfl, rfl, rfl⟩

/-- Claim C4 (amended): a status body lacking the `connected` member is not
a decode error: the missing member is coerced to `false` and applied, so
the stored flag becomes `false`, with a `ConnectionStatus` event exactly
when it was previously `true`. -/
theorem claim_C4 (status : List (String × Json)) (s : DataModelState)
    (h : objLookup status "connected" = none) :
    (handleStatusReceived status s).1.m_connected = false ∧
    (handleStatusReceived status s).2 =
      (if s.m_connected then [ChangeEvent.connectionStatusChanged]
       else []) := by
  have hb : toBool (objLookup status "connected") = false := by
    rw [h]
    rfl
  unfold handleStatusReceived
  rw [hb]
  cases hc : s.m_connected <;> simp [hc]

/-- Claim C4 witness: the amended claim at the empty status object and a
connected snapshot. -/
theorem claim_C4_witness :
    objLookup ([] : List (String × Json)) "connected" = none ∧
    ((handleStatusReceived [] connectedIdle).1.m_connected = false ∧
      (handleStatusReceived [] connectedIdle).2 =
        (if connectedIdle.m_connected
         then [ChangeEvent.connectionStatusChanged] else [])) :=
  ⟨rfl, claim_C4 [] connectedIdle rfl⟩

/-- Claim C5: a non-parseable response body (a null `QJsonDocument`) on any
path makes the reply handler emit exactly the decode-error notification and
neither a data result nor a status result, so no snapshot field can be
updated from that body. -/
theorem claim_C5 (path : String) :
    handleNetworkReply none none path =
      [NetworkEvent.error "Invalid JSON response"] ∧
    (∀ j, NetworkEvent.dataReceived j ∉ handleNetworkReply none none path) ∧
    (∀ j, NetworkEvent.systemStatusReceived j ∉
      handleNetworkReply none none path) := by
  refine ⟨rfl, ?_, ?_⟩ <;> intro j h <;> simp [handleNetworkReply] at h

/-- Claim C6: from a disconnected snapshot, a status object decoding
`connected = true` sets the flag and emits exactly one `ConnectionStatus`
event; applying the same status again emits nothing and leaves the state
unchanged. -/
theorem claim_C6 (status : List (String × Json)) (s : DataModelState)
    (hs : s.m_connected = false)
    (ht : toBool (objLookup status "connected") = true) :
    (handleStatusReceived status s).1.m_connected = true ∧
    (handleStatusReceived status s).2 =
      [ChangeEvent.connectionStatusChanged] ∧
    handleStatusReceived status (handleStatusReceived status s).1 =
      ((handleStatusReceived status s).1, []) := by
  have h1 : handleStatusReceived status s =
      ({ s with m_connected := true }, [ChangeEvent.connectionStatusChanged]) := by
    unfold handleStatusReceived
    rw [ht, hs]
    simp
  have h2 : handleStatusReceived status { s with m_connected := true } =
      ({ s with m_connected := true }, []) := by
    unfold handleStatusReceived
    rw [ht]
    simp
  rw [h1]
  exact ⟨rfl, rfl, h2⟩

/-- Claim C6 witness: the claim at the status object
`{"connected": true}` and the initial (disconnected) snapshot. -/
theorem claim_C6_witness :
    initialDataModel.m_connected = false ∧
    toBool (objLookup [("connected", Json.bool true)] "connected") = true ∧
    ((handleStatusReceived [("connected", Json.bool true)]
        initialDataModel).1.m_connected = true ∧
      (handleStatusReceived [("connected", Json.bool true)]
        initialDataModel).2 = [ChangeEvent.connectionStatusChanged] ∧
      handleStatusReceived [("connected", Json.bool true)]
          (handleStatusReceived [("connected", Json.bool true)]
            initialDataModel).1 =
        ((handleStatusReceived [("connected", Json.bool true)]
          initialDataModel).1, [])) :=
  ⟨rfl, rfl,
    claim_C6 [("connected", Json.bool true)] initialDataModel rfl rfl⟩

/-- Claim C7: the connectivity flag starts `false` at construction, a
telemetry application never changes it, and a fetch failure always forces
it to `false`; only the status and failure handlers drive its
transitions. -/
theorem claim_C7 :
    initialDataModel.m_connected = false ∧
    (∀ (data : List (String × Json)) (s : DataModelState),
      (handleDataReceived data s).1.m_connected = s.m_connected) ∧
    (∀ (err : String) (s : DataModelState),
      (handleNetworkError err s).1.m_connected = false) :=
  ⟨rfl, fun data s => hdr_fst_connected data s, fun _ _ => rfl⟩

/-- Claim C8: a telemetry mapping that does not contain a field's key
leaves that field's stored value exactly unchanged and emits no change
event for it. -/
theorem claim_C8 (f : TelemetryField) (data : List (String × Json))
    (s : DataModelState)
    (h : objContains (toObjectFieldsOpt (objLookup data "messages")) f.key
      = false) :
    f.get (handleDataReceived data s).1 = f.get s ∧
    f.event ∉ (handleDataReceived data s).2 := by
  have hd : decodedField data f.key = none := by
    unfold decodedField
    rw [h]
    simp
  constructor
  · rw [hdr_fst_field, hd]
    rfl
  · intro hmem
    rw [hdr_event_field, hd] at hmem
    obtain ⟨v, hv, -⟩ := hmem
    exact Option.noConfusion hv

/-- Claim C8 witness: the claim at the `speed` field, the empty response
object and the initial snapshot. -/
theorem claim_C8_witness :
    objContains
      (toObjectFieldsOpt
        (objLookup ([] : List (String × Json)) "messages"))
      TelemetryField.speed.key = false ∧
    (TelemetryField.speed.get
        (handleDataReceived [] initialDataModel).1 =
      TelemetryField.speed.get initialDataModel ∧
      TelemetryField.speed.event ∉
        (handleDataReceived [] initialDataModel).2) :=
  ⟨rfl, claim_C8 TelemetryField.speed [] initialDataModel rfl⟩

/-- Claim C9: adding an entry under any key other than `speed`,
`battery_voltage` and `motor_temp` to a telemetry mapping changes neither
the resulting snapshot nor the emitted events — unknown keys are
ignored. -/
theorem claim_C9 (k : String) (v : Json) (ms : List (String × Json))
    (s : DataModelState)
    (h1 : k ≠ "speed") (h2 : k ≠ "battery_voltage")
    (h3 : k ≠ "motor_temp") :
    handleDataReceived [("messages", Json.obj ((k, v) :: ms))] s =
      handleDataReceived [("messages", Json.obj ms)] s := by
  have c1 : objContains ((k, v) :: ms) "speed" = objContains ms "speed" := by
    unfold objContains
    rw [objLookup_cons_ne k v ms _ h1]
  have d1 : entryDouble ((k, v) :: ms) "speed" = entryDouble ms "speed" := by
    unfold entryDouble
    rw [objLookup_cons_ne k v ms _ h1]
  have c2 : objContains ((k, v) :: ms) "battery_voltage" =
      objContains ms "battery_voltage" := by
    unfold objContains
    rw [objLookup_cons_ne k v ms _ h2]
  have d2 : entryDouble ((k, v) :: ms) "battery_voltage" =
      entryDouble ms "battery_voltage" := by
    unfold entryDouble
    rw [objLookup_cons_ne k v ms _ h2]
  have c3 : objContains ((k, v) :: ms) "motor_temp" =
      objContains ms "motor_temp" := by
    unfold objContains
    rw [objLookup_cons_ne k v ms _ h3]
  have d3 : entryDouble ((k, v) :: ms) "motor_temp" =
      entryDouble ms "motor_temp" := by
    unfold entryDouble
    rw [objLookup_cons_ne k v ms _ h3]
  have hs : ∀ p, speedStep ((k, v) :: ms) p = speedStep ms p := by
    intro p
    unfold speedStep
    rw [c1, d1]
  have hb : ∀ p, batteryStep ((k, v) :: ms) p = batteryStep ms p := by
    intro p
    unfold batteryStep
    rw [c2, d2]
  have hm : ∀ p, motorStep ((k, v) :: ms) p = motorStep ms p := by
    intro p
    unfold motorStep
    rw [c3, d3]
  show motorStep ((k, v) :: ms)
      (batteryStep ((k, v) :: ms) (speedStep ((k, v) :: ms) (s, []))) =
    motorStep ms (batteryStep ms (speedStep ms (s, [])))
  rw [hs, hb, hm]

/-- Claim C9 witness: the claim at an unknown key `"other"`. -/
theorem claim_C9_witness :
    ("other" : String) ≠ "speed" ∧ ("other" : String) ≠ "battery_voltage" ∧
    ("other" : String) ≠ "motor_temp" ∧
    handleDataReceived
        [("messages", Json.obj [("other", Json.num 7)])] initialDataModel =
      handleDataReceived [("messages", Json.obj [])] initialDataModel :=
  ⟨by decide, by decide, by decide,
    claim_C9 "other" (Json.num 7) [] initialDataModel
      (by decide) (by decide) (by decide)⟩

/-- Claim C10: a response object whose `messages` member is absent or not a
JSON object is treated as an empty update: the snapshot is returned
unchanged and no event (in particular no error) is emitted. -/
theorem claim_C10 (data : List (String × Json)) (s : DataModelState)
    (h : isObjOpt (objLookup data "messages") = false) :
    handleDataReceived data s = (s, []) := by
  have hm : toObjectFieldsOpt (objLookup data "messages") = [] := by
    rcases hj : objLookup data "messages" with _ | j
    · rfl
    · rw [hj] at h
      cases j
      · rfl
      · rfl
      · rfl
      · rfl
      · rfl
      · exact Bool.noConfusion h
  unfold handleDataReceived
  rw [hm]
  rfl

/-- Claim C10 witness: the claim at a response whose `messages` member is
the number `3`. -/
theorem claim_C10_witness :
    isObjOpt (objLookup [("messages", Json.num 3)] "messages") = false ∧
    handleDataReceived [("messages", Json.num 3)] initialDataModel =
      (initialDataModel, []) :=
  ⟨rfl, claim_C10 [("messages", Json.num 3)] initialDataModel rfl⟩

end EcocarHMI
